import Mathlib

/-!
Verification of the ticket lifecycle coordinator of the AI support
human-in-the-loop system.  The four lifecycle stores are modelled as
in-memory collections of BSON-like documents; the store operations used by
the code (`find_one_and_update`, `find_one_and_delete`, `update_one`,
`delete_one`, `insert_one`, `find`) are modelled as first-match list
operations; Python dictionary access and exceptions are modelled with an
explicit error type.

Documents carry scalar fields plus one level of subdocument (the
`metadata` object whose own fields are all scalars), which is exactly the
shape of every record the repository creates.
-/

namespace AiSupport

/-- A scalar BSON value: string, number (rational), boolean, null, or
timestamp (abstract ticks standing for `datetime` values). -/
inductive Prim where
  | pStr (s : String)
  | pNum (q : Rat)
  | pBool (b : Bool)
  | pNull
  | pTime (n : Nat)
deriving DecidableEq, Repr

/-- A subdocument (such as `metadata`): ordered scalar fields. -/
abbrev SubDoc := List (String × Prim)

/-- A document value: a scalar or a subdocument. -/
inductive BVal where
  | prim (v : Prim)
  | sub (fields : SubDoc)
deriving DecidableEq, Repr

/-- A document is an ordered association list of fields (Python dicts and
Mongo documents preserve insertion order, and the code never creates
duplicate keys). -/
abbrev Doc := List (String × BVal)

/-- A store is an ordered list of documents; Mongo returns documents in
natural order for the plain queries used in the code. -/
abbrev Collection := List Doc

/-- Scalar shorthands. -/
def vStr (s : String) : BVal := .prim (.pStr s)

def vNum (q : Rat) : BVal := .prim (.pNum q)

def vBool (b : Bool) : BVal := .prim (.pBool b)

def vNull : BVal := .prim .pNull

def vTime (n : Nat) : BVal := .prim (.pTime n)

/-- First-match field lookup in an association list. -/
def dget {α : Type} : List (String × α) → String → Option α
  | [], _ => none
  | (k1, v) :: rest, k => if k1 = k then some v else dget rest k

/-- Replace the first binding of a key, or append it (Python dict
assignment / Mongo `$set` on a present field). -/
def dset {α : Type} : List (String × α) → String → α → List (String × α)
  | [], k, v => [(k, v)]
  | (k1, v1) :: rest, k, v =>
      if k1 = k then (k, v) :: rest else (k1, v1) :: dset rest k v

/-- Resolve the dotted path `metadata.k`, as a Mongo equality filter does:
the value is found only when `metadata` is a subdocument containing `k`. -/
def metaGet (d : Doc) (k : String) : Option Prim :=
  match dget d "metadata" with
  | some (.sub s) => dget s k
  | _ => none

/-- Mongo `$set` on the dotted path `metadata.k`: update the field inside
the `metadata` subdocument, creating the subdocument when missing. -/
def setMetaField (d : Doc) (k : String) (v : Prim) : Doc :=
  dset d "metadata"
    (.sub (dset (match dget d "metadata" with
                 | some (.sub s) => s
                 | _ => []) k v))

/-- The Python exceptions that the embedded code can raise or catch. -/
inductive PyErr where
  | keyError (k : String)
  | typeError
  | attributeError
  | connectionFailure
  | parseError
  | pyMongoError
deriving DecidableEq, Repr

/-- Python `d[k]` on a dictionary: `KeyError` when the key is missing. -/
def getItem (d : Doc) (k : String) : Except PyErr BVal :=
  match dget d k with
  | some v => .ok v
  | none => .error (.keyError k)

/-- Python `v[k]` on an arbitrary value: subscripting a non-dictionary
raises `TypeError`, a missing key raises `KeyError`. -/
def pyGetItem (v : BVal) (k : String) : Except PyErr BVal :=
  match v with
  | .sub s =>
      match dget s k with
      | some x => .ok (.prim x)
      | none => .error (.keyError k)
  | .prim _ => .error .typeError

/-- Scalar view of a value, for placing a looked-up value inside a
`metadata` subdocument.  Every value the code stores inside `metadata` is
a scalar, so the subdocument branch is unreachable on the records the
repository creates. -/
def BVal.asPrim : BVal → Prim
  | .prim p => p
  | .sub _ => .pNull

/-- Python `d.get(k, default)`. -/
def getDefault (d : Doc) (k : String) (v : BVal) : BVal :=
  (dget d k).getD v

/-- Mongo filter `{"ticket_id": v}` (equality on a top-level field). -/
def matchesTid (v : BVal) (d : Doc) : Bool :=
  dget d "ticket_id" == some v

/-- `find_one_and_update` with `ReturnDocument.AFTER`: update the first
matching document in place and return the post-update document. -/
def findOneAndUpdate (m : Doc → Bool) (u : Doc → Doc) :
    Collection → Option Doc × Collection
  | [] => (none, [])
  | d :: rest =>
      if m d then (some (u d), u d :: rest)
      else
        let r := findOneAndUpdate m u rest
        (r.1, d :: r.2)

/-- `find_one_and_delete`: remove and return the first matching document. -/
def findOneAndDelete (m : Doc → Bool) : Collection → Option Doc × Collection
  | [] => (none, [])
  | d :: rest =>
      if m d then (some d, rest)
      else
        let r := findOneAndDelete m rest
        (r.1, d :: r.2)

/-- `update_one`: update the first matching document in place. -/
def updateOne (m : Doc → Bool) (u : Doc → Doc) : Collection → Collection
  | [] => []
  | d :: rest => if m d then u d :: rest else d :: updateOne m u rest

/-- `delete_one`: remove the first matching document. -/
def deleteOne (m : Doc → Bool) : Collection → Collection
  | [] => []
  | d :: rest => if m d then rest else d :: deleteOne m rest

/-- `insert_one` appends a document. -/
def insertOne (c : Collection) (d : Doc) : Collection := c ++ [d]

/-- `find` returns the cursor over all matching documents in order. -/
def findAll (m : Doc → Bool) (c : Collection) : List Doc := c.filter m

/-- The five Mongo collections the repository touches:
`pending_tickets`, `ai_pending_drafted_tickets`, `solved_tickets`,
`escalated_tickets`, and the worker's `draft_tickets`. -/
structure DB where
  pending_tickets : Collection
  ai_pending_drafted_tickets : Collection
  solved_tickets : Collection
  escalated_tickets : Collection
  draft_tickets : Collection
deriving DecidableEq, Repr

/-- A collection name, as passed to `connect_mongo_db`. -/
inductive StoreName where
  | pendingTickets
  | aiPendingDraftedTickets
  | solvedTickets
  | escalatedTickets
  | draftTickets
deriving DecidableEq, Repr

def DB.getCol (db : DB) : StoreName → Collection
  | .pendingTickets => db.pending_tickets
  | .aiPendingDraftedTickets => db.ai_pending_drafted_tickets
  | .solvedTickets => db.solved_tickets
  | .escalatedTickets => db.escalated_tickets
  | .draftTickets => db.draft_tickets

def DB.setCol (db : DB) : StoreName → Collection → DB
  | .pendingTickets, c => { db with pending_tickets := c }
  | .aiPendingDraftedTickets, c => { db with ai_pending_drafted_tickets := c }
  | .solvedTickets, c => { db with solved_tickets := c }
  | .escalatedTickets, c => { db with escalated_tickets := c }
  | .draftTickets, c => { db with draft_tickets := c }

/-! ## utils.py: store join and the four move transitions

Each `move_*` function in `utils.py` wraps its body in
`try ... except PyMongoError: return False`.  In this embedding the store
operations are in-memory and never raise `PyMongoError`, so the `except`
branch is dead; other exceptions (`KeyError`, `TypeError`,
`AttributeError`) propagate to the caller, exactly as in the source.
Every function returns its result together with the store state reached
when it terminates, since Python exceptions do not roll back completed
store writes.  `datetime.datetime.now()` is passed in as the abstract
tick `now`.
-/

/-- `utils.fetch_ai_drafted_document`: cursor over
`ai_pending_drafted_tickets` filtered by `ticket_id`. -/
def fetch_ai_drafted_document (tidv : BVal) (drafted : Collection) : List Doc :=
  findAll (matchesTid tidv) drafted

/-- `utils.fetch_ticket_response_and_confidence`: read `reply` and
`confidence` from the first drafted-store document with the given
`ticket_id`.  The `for` loop returns on its first iteration; when the
cursor is empty the function falls through and returns `None`, modelled
as `none`. -/
def fetch_ticket_response_and_confidence (tidv : BVal) (drafted : Collection) :
    Except PyErr (Option (BVal × BVal)) :=
  match fetch_ai_drafted_document tidv drafted with
  | [] => .ok none
  | values :: _ => do
      let r ← getItem values "reply"
      let c ← getItem values "confidence"
      .ok (some (r, c))

/-- `utils.remove_drafted_ticket_from_db`: `delete_one` by `ticket_id` on
`ai_pending_drafted_tickets`; returns `True`. -/
def remove_drafted_ticket_from_db (ticket_id : String) (drafted : Collection) :
    Bool × Collection :=
  (true, deleteOne (matchesTid (vStr ticket_id)) drafted)

/-- `utils.move_escalated_ticket_to_completed_in_db`. -/
def move_escalated_ticket_to_completed_in_db
    (ticket_id : String) (response : String) (now : Nat) (db : DB) :
    Except PyErr Bool × DB :=
  match findOneAndDelete (matchesTid (vStr ticket_id)) db.escalated_tickets with
  | (none, e1) =>
      (.error .attributeError, { db with escalated_tickets := e1 })
  | (some t, e1) =>
      let db1 := { db with escalated_tickets := e1 }
      match (do
        let issue ← getItem t "issue"
        let ai := getDefault t "ai_drafted_response"
          (vStr "Senior agent handled the response")
        let up := getDefault t "used_policy" vNull
        let ur := getDefault t "used_reference_ticket_id" vNull
        let conf := getDefault t "confidence"
          (vStr "Senior agent handled the response")
        let md ← getItem t "metadata"
        let ct ← pyGetItem md "ticket_creation_time"
        let cat ← pyGetItem md "category"
        let pri ← pyGetItem md "priority"
        let isd ← pyGetItem md "is_drafted"
        pure ([("ticket_id", vStr ticket_id), ("issue", issue),
               ("resolution", vStr response),
               ("ai_drafted_response", ai), ("used_policy", up),
               ("used_reference_ticket_id", ur), ("confidence", conf),
               ("metadata", BVal.sub
                 [("ticket_creation_time", ct.asPrim),
                  ("ticket_closure_time", .pTime now),
                  ("category", cat.asPrim), ("priority", pri.asPrim),
                  ("is_drafted", isd.asPrim), ("tone", .pNull)])] : Doc)
        : Except PyErr Doc) with
      | .error e => (.error e, db1)
      | .ok d =>
          (.ok true, { db1 with solved_tickets := insertOne db1.solved_tickets d })

/-- `utils.move_pending_ticket_to_completed_in_db`.  Order of effects, as
in the source: delete from `pending_tickets`; branch on
`ticket_to_move['metadata']['is_drafted'] is False` to pick
`ai_drafted_response`/`confidence`/`tone` (the else branch joins against
the drafted store and reads `ticket_to_move['tone']`); then, again when
`is_drafted is False`, call `remove_drafted_ticket_from_db`; finally build
and insert the completed document. -/
def move_pending_ticket_to_completed_in_db
    (ticket_id : String) (response : String) (now : Nat) (db : DB) :
    Except PyErr Bool × DB :=
  match findOneAndDelete (matchesTid (vStr ticket_id)) db.pending_tickets with
  | (none, p1) =>
      (.error .attributeError, { db with pending_tickets := p1 })
  | (some t, p1) =>
      let db1 := { db with pending_tickets := p1 }
      match (do
        let md ← getItem t "metadata"
        let isd ← pyGetItem md "is_drafted"
        if isd = vBool false then
          pure (isd, vNull, vNull, vNull)
        else do
          let tidv ← getItem t "ticket_id"
          match ← fetch_ticket_response_and_confidence tidv
              db1.ai_pending_drafted_tickets with
          | none => throw .typeError
          | some (ai, conf) => do
              let tone ← getItem t "tone"
              pure (isd, ai, conf, tone)
        : Except PyErr (BVal × BVal × BVal × BVal)) with
      | .error e => (.error e, db1)
      | .ok (isd, ai, conf, tone) =>
          let db2 :=
            if isd = vBool false then
              { db1 with ai_pending_drafted_tickets :=
                  (remove_drafted_ticket_from_db ticket_id
                    db1.ai_pending_drafted_tickets).2 }
            else db1
          match (do
            let issue ← getItem t "issue"
            let md ← getItem t "metadata"
            let ct ← pyGetItem md "ticket_creation_time"
            let cat ← pyGetItem md "category"
            let pri ← pyGetItem md "priority"
            let isd2 ← pyGetItem md "is_drafted"
            pure ([("ticket_id", vStr ticket_id), ("issue", issue),
                   ("resolution", vStr response),
                   ("ai_drafted_response", ai), ("confidence", conf),
                   ("metadata", BVal.sub
                     [("ticket_creation_time", ct.asPrim),
                      ("ticket_closure_time", .pTime now),
                      ("category", cat.asPrim), ("priority", pri.asPrim),
                      ("is_drafted", isd2.asPrim),
                      ("tone", tone.asPrim)])] : Doc)
            : Except PyErr Doc) with
          | .error e => (.error e, db2)
          | .ok d =>
              (.ok true,
               { db2 with solved_tickets := insertOne db2.solved_tickets d })

/-- `utils.move_drafted_ticket_to_completed_in_db`: delete from
`ai_pending_drafted_tickets` by `ticket_id`, then insert the completed
document with `ai_drafted_response`, `used_policy`,
`used_reference_ticket_id`, `confidence` and `metadata.tone` copied from
the source record. -/
def move_drafted_ticket_to_completed_in_db
    (ticket_id : String) (response : String) (now : Nat) (db : DB) :
    Except PyErr Bool × DB :=
  match findOneAndDelete (matchesTid (vStr ticket_id))
      db.ai_pending_drafted_tickets with
  | (none, d1) =>
      (.error .attributeError, { db with ai_pending_drafted_tickets := d1 })
  | (some t, d1) =>
      let db1 := { db with ai_pending_drafted_tickets := d1 }
      match (do
        let issue ← getItem t "issue"
        let ai ← getItem t "ai_drafted_response"
        let up ← getItem t "used_policy"
        let ur ← getItem t "used_reference_ticket_id"
        let conf ← getItem t "confidence"
        let md ← getItem t "metadata"
        let ct ← pyGetItem md "ticket_creation_time"
        let cat ← pyGetItem md "category"
        let pri ← pyGetItem md "priority"
        let isd ← pyGetItem md "is_drafted"
        let tone ← pyGetItem md "tone"
        pure ([("ticket_id", vStr ticket_id), ("issue", issue),
               ("resolution", vStr response),
               ("ai_drafted_response", ai), ("used_policy", up),
               ("used_reference_ticket_id", ur), ("confidence", conf),
               ("metadata", BVal.sub
                 [("ticket_creation_time", ct.asPrim),
                  ("ticket_closure_time", .pTime now),
                  ("category", cat.asPrim), ("priority", pri.asPrim),
                  ("is_drafted", isd.asPrim),
                  ("tone", tone.asPrim)])] : Doc)
        : Except PyErr Doc) with
      | .error e => (.error e, db1)
      | .ok d =>
          (.ok true, { db1 with solved_tickets := insertOne db1.solved_tickets d })

/-- `utils.move_tickets_to_escalated_tickets_in_db`: delete from the named
source collection by `ticket_id` and insert the record verbatim into
`escalated_tickets`. -/
def move_tickets_to_escalated_tickets_in_db
    (ticket_id : String) (fromName : StoreName) (db : DB) :
    Except PyErr Bool × DB :=
  match findOneAndDelete (matchesTid (vStr ticket_id)) (db.getCol fromName) with
  | (none, c1) =>
      (.error .attributeError, db.setCol fromName c1)
  | (some t, c1) =>
      let db1 := db.setCol fromName c1
      (.ok true,
       { db1 with escalated_tickets := insertOne db1.escalated_tickets t })

/-! ## response_drafting_utils.py and app/fetches_from_db.py: the worker

The completion-service call is external: its outcome is passed in as
`llmResult`, either `.error .connectionFailure` (the service raised
`ConnectionFailure`) or `.ok raw` where `raw` is the structured content
handed to the output parser, already in document form. -/

/-- `response_drafting_utils.ResponseDraftingOutput`, the pydantic output
schema: `ticket_id`, `reply`, `tone` are required strings, `confidence` a
required float, `used_policy` and `used_reference_ticket_id` optional with
default `None`.  No field declares any range constraint. -/
structure ResponseDraftingOutput where
  ticket_id : String
  reply : String
  tone : String
  confidence : Rat
  used_policy : Option String
  used_reference_ticket_id : Option String
deriving DecidableEq, Repr

/-- A required string field: missing or non-string raises a validation
error, surfaced by `PydanticOutputParser` as an output-parsing error. -/
def reqStrField (d : Doc) (k : String) : Except PyErr String :=
  match dget d k with
  | some (.prim (.pStr s)) => .ok s
  | _ => .error .parseError

/-- A required float field: any number is accepted (the schema declares
`confidence: float` with no bounds). -/
def reqFloatField (d : Doc) (k : String) : Except PyErr Rat :=
  match dget d k with
  | some (.prim (.pNum q)) => .ok q
  | _ => .error .parseError

/-- An optional string field declared `str` with `default=None`: absent
means the default `None`; a present value must be a string. -/
def optStrField (d : Doc) (k : String) : Except PyErr (Option String) :=
  match dget d k with
  | none => .ok none
  | some (.prim (.pStr s)) => .ok (some s)
  | some _ => .error .parseError

/-- An `Optional[str]` field with default `None`: absent or `null` means
`None`; a present value must otherwise be a string. -/
def optNullableStrField (d : Doc) (k : String) : Except PyErr (Option String) :=
  match dget d k with
  | none => .ok none
  | some v =>
      if v = vNull then .ok none
      else match v with
        | .prim (.pStr s) => .ok (some s)
        | _ => .error .parseError

/-- `parser.parse` on the completion content: pydantic validation of
`ResponseDraftingOutput`.  A schema violation raises the parse error; the
`confidence` value is only checked to be a number, never range-checked. -/
def parseRDOutput (raw : Doc) : Except PyErr ResponseDraftingOutput := do
  let tid ← reqStrField raw "ticket_id"
  let reply ← reqStrField raw "reply"
  let tone ← reqStrField raw "tone"
  let conf ← reqFloatField raw "confidence"
  let up ← optStrField raw "used_policy"
  let ur ← optNullableStrField raw "used_reference_ticket_id"
  pure ⟨tid, reply, tone, conf, up, ur⟩

/-- `fetches_from_db.response_drafting`: invoke the completion service
(which may raise `ConnectionFailure`) and parse its structured output. -/
def response_drafting (llmResult : Except PyErr Doc) :
    Except PyErr ResponseDraftingOutput := do
  let raw ← llmResult
  parseRDOutput raw

/-- Encode an optional string as a stored value (`None` becomes null). -/
def optVal : Option String → BVal
  | some s => vStr s
  | none => vNull

/-- Python `previously_solved_ticket_id or None`: an empty string is falsy
and is replaced by `None`. -/
def orNone : Option String → BVal
  | some s => if s = "" then vNull else vStr s
  | none => vNull

/-- The document `fetches_from_db.save_draft_to_db` inserts into
`draft_tickets`. -/
def save_draft_to_db_doc (tidv issue ct md : BVal)
    (o : ResponseDraftingOutput) : Doc :=
  [("ticket_id", tidv), ("issue", issue), ("reply", vStr o.reply),
   ("reply_tone", vStr o.tone), ("confidence", vNum o.confidence),
   ("used_policy", optVal o.used_policy),
   ("previously_solved_ticket_id", orNone o.used_reference_ticket_id),
   ("ticket_creation_time", ct), ("metadata", md)]

/-- `fetches_from_db.perform_ai_drafting`: read `ticket_id`, `issue`,
`ticket_creation_time` and `metadata` from the ticket (plain subscripts,
so a missing field raises `KeyError`), run `response_drafting`, and save
the draft to `draft_tickets`. -/
def perform_ai_drafting (t : Doc) (llmResult : Except PyErr Doc) (db : DB) :
    Except PyErr Unit × DB :=
  match (do
    let tidv ← getItem t "ticket_id"
    let issue ← getItem t "issue"
    let ct ← getItem t "ticket_creation_time"
    let md ← getItem t "metadata"
    let o ← response_drafting llmResult
    pure (tidv, issue, ct, md, o)
    : Except PyErr (BVal × BVal × BVal × BVal × ResponseDraftingOutput)) with
  | .error e => (.error e, db)
  | .ok (tidv, issue, ct, md, o) =>
      (.ok (),
       { db with draft_tickets :=
           insertOne db.draft_tickets (save_draft_to_db_doc tidv issue ct md o) })

/-- The worker's claim filter `{"metadata.drafted": False}`. -/
def claimEligible (d : Doc) : Bool :=
  metaGet d "drafted" == some (.pBool false)

/-- The worker's claim update `{"$set": {"metadata.drafted": True}}`. -/
def claimUpdate (d : Doc) : Doc :=
  setMetaField d "drafted" (.pBool true)

/-- The worker's claim step: `find_one_and_update` on `pending_tickets`
with filter `{"metadata.drafted": False}`, update
`{"$set": {"metadata.drafted": True}}` and `ReturnDocument.AFTER`. -/
def claim_next (c : Collection) : Option Doc × Collection :=
  findOneAndUpdate claimEligible claimUpdate c

/-- Outcome of one iteration of the worker's `while True` loop. -/
inductive WorkerOutcome where
  | slept
  | draftedOk (tidv : BVal)
  | rolledBack (tidv : BVal)
  | crashed (e : PyErr)
deriving DecidableEq, Repr

/-- One iteration of the `__main__` worker loop of `fetches_from_db.py`:
claim a ticket (or sleep when none matches); inside the `try`, print the
ticket id (`KeyError` here is uncaught) and run `perform_ai_drafting`; on
`ConnectionFailure` roll the claim back with `update_one`
`{"$set": {"metadata.drafted": False}}`; any other exception escapes the
loop and crashes the worker. -/
def workerIteration (llmResult : Except PyErr Doc) (db : DB) :
    WorkerOutcome × DB :=
  match claim_next db.pending_tickets with
  | (none, p1) => (.slept, { db with pending_tickets := p1 })
  | (some t, p1) =>
      let db1 := { db with pending_tickets := p1 }
      match dget t "ticket_id" with
      | none => (.crashed (.keyError "ticket_id"), db1)
      | some tidv =>
          match perform_ai_drafting t llmResult db1 with
          | (.ok _, db2) => (.draftedOk tidv, db2)
          | (.error .connectionFailure, db2) =>
              (.rolledBack tidv,
               { db2 with pending_tickets :=
                   (updateOne (matchesTid tidv)
                     (fun d => setMetaField d "drafted" (.pBool false))
                     db2.pending_tickets) })
          | (.error e, db2) => (.crashed e, db2)

/-- A sequence of `claim_next` steps against one pending store, with no
interleaved release: returns the successfully claimed documents in order,
stopping early when a step signals empty. -/
def claimSeq : Nat → Collection → List Doc × Collection
  | 0, c => ([], c)
  | n + 1, c =>
      match claim_next c with
      | (none, c1) => ([], c1)
      | (some t, c1) =>
          let r := claimSeq n c1
          (t :: r.1, r.2)

/-! ## Lemmas about the store primitives -/

theorem dget_dset_self {α : Type} (l : List (String × α)) (k : String) (v : α) :
    dget (dset l k v) k = some v := by
  induction l with
  | nil => simp [dget, dset]
  | cons hd tl ih =>
      obtain ⟨k1, v1⟩ := hd
      by_cases hk : k1 = k
      · simp [dset, hk, dget]
      · simp [dset, hk, dget, ih]

theorem dget_dset_ne {α : Type} (l : List (String × α)) (k k' : String) (v : α)
    (h : k' ≠ k) : dget (dset l k v) k' = dget l k' := by
  have hkk : ¬ (k = k') := fun hh => h hh.symm
  induction l with
  | nil => simp [dget, dset, hkk]
  | cons hd tl ih =>
      obtain ⟨k1, v1⟩ := hd
      by_cases hk : k1 = k
      · subst hk
        simp [dset, dget, hkk]
      · simp [dset, hk, dget, ih]

theorem metaGet_setMetaField_self (d : Doc) (k : String) (v : Prim) :
    metaGet (setMetaField d k v) k = some v := by
  simp [metaGet, setMetaField, dget_dset_self]

theorem dget_setMetaField_ne (d : Doc) (k : String) (v : Prim) (k' : String)
    (h : k' ≠ "metadata") : dget (setMetaField d k v) k' = dget d k' := by
  simp [setMetaField, dget_dset_ne _ _ _ _ h]

theorem claimEligible_claimUpdate (d : Doc) :
    claimEligible (claimUpdate d) = false := by
  simp [claimEligible, claimUpdate, metaGet_setMetaField_self]

theorem dget_tid_claimUpdate (d : Doc) :
    dget (claimUpdate d) "ticket_id" = dget d "ticket_id" := by
  apply dget_setMetaField_ne
  intro h
  exact absurd h (by decide)

theorem findOneAndUpdate_none (m : Doc → Bool) (u : Doc → Doc)
    (c : Collection) (h : ∀ d ∈ c, m d = false) :
    findOneAndUpdate m u c = (none, c) := by
  induction c with
  | nil => rfl
  | cons d c ih =>
      have hd := h d (by simp)
      have hc := ih fun x hx => h x (by simp [hx])
      simp [findOneAndUpdate, hd, hc]

theorem findOneAndDelete_none (m : Doc → Bool) (c : Collection)
    (h : ∀ d ∈ c, m d = false) : findOneAndDelete m c = (none, c) := by
  induction c with
  | nil => rfl
  | cons d c ih =>
      have hd := h d (by simp)
      have hc := ih fun x hx => h x (by simp [hx])
      simp [findOneAndDelete, hd, hc]

theorem findOneAndDelete_filter (m : Doc → Bool) (c c1 : Collection) (t : Doc)
    (hc : findOneAndDelete m c = (some t, c1)) :
    c.filter m = t :: c1.filter m := by
  induction c generalizing c1 with
  | nil => simp [findOneAndDelete] at hc
  | cons d c ih =>
      by_cases hd : m d
      · simp [findOneAndDelete, hd] at hc
        obtain ⟨rfl, rfl⟩ := hc
        simp [List.filter_cons, hd]
      · simp only [findOneAndDelete, hd, Bool.false_eq_true, if_false] at hc
        cases hrec : findOneAndDelete m c with
        | mk o c2 =>
            rw [hrec] at hc
            cases o with
            | none => simp at hc
            | some t2 =>
                simp at hc
                obtain ⟨rfl, rfl⟩ := hc
                simp [List.filter_cons, hd, ih c2 hrec]

theorem claim_next_cons_pos (d : Doc) (c : Collection)
    (h : claimEligible d = true) :
    claim_next (d :: c) = (some (claimUpdate d), claimUpdate d :: c) := by
  simp [claim_next, findOneAndUpdate, h]

theorem claim_next_cons_neg (d : Doc) (c : Collection)
    (h : claimEligible d = false) :
    claim_next (d :: c) = ((claim_next c).1, d :: (claim_next c).2) := by
  simp [claim_next, findOneAndUpdate, h]

theorem claim_next_append_skip (pre c : Collection)
    (h : ∀ d ∈ pre, claimEligible d = false) :
    claim_next (pre ++ c) = ((claim_next c).1, pre ++ (claim_next c).2) := by
  induction pre with
  | nil => simp
  | cons d pre ih =>
      have hd := h d (by simp)
      have hpre := ih fun x hx => h x (by simp [hx])
      simp only [List.cons_append]
      rw [claim_next_cons_neg _ _ hd, hpre]

theorem claimSeq_skip (n : Nat) (pre c : Collection)
    (h : ∀ d ∈ pre, claimEligible d = false) :
    claimSeq n (pre ++ c) = ((claimSeq n c).1, pre ++ (claimSeq n c).2) := by
  induction n generalizing c with
  | zero => simp [claimSeq]
  | succ n ih =>
      rw [claimSeq, claimSeq, claim_next_append_skip pre c h]
      cases hc : claim_next c with
      | mk o c1 =>
          cases o with
          | none => simp
          | some t => simp [ih c1]

theorem claimSeq_fst (c : Collection) : ∀ n : Nat,
    (claimSeq n c).1 = ((c.filter claimEligible).take n).map claimUpdate := by
  induction c with
  | nil =>
      intro n
      cases n <;> simp [claimSeq, claim_next, findOneAndUpdate]
  | cons d c ih =>
      intro n
      cases hd : claimEligible d with
      | true =>
          cases n with
          | zero => simp [claimSeq]
          | succ n =>
              rw [claimSeq, claim_next_cons_pos d c hd]
              have hskip := claimSeq_skip n [claimUpdate d] c
                (by
                  intro x hx
                  simp at hx
                  subst hx
                  exact claimEligible_claimUpdate d)
              simp only [List.singleton_append] at hskip
              simp [hskip, List.filter_cons, hd, ih n]
      | false =>
          have hskip := claimSeq_skip n [d] c (by simp [hd])
          simp only [List.singleton_append] at hskip
          simp [hskip, List.filter_cons, hd, ih n]

theorem claim_next_some (c c1 : Collection) (t : Doc)
    (hc : claim_next c = (some t, c1)) :
    t ∈ c1 ∧ metaGet t "drafted" = some (.pBool true) := by
  induction c generalizing c1 with
  | nil => simp [claim_next, findOneAndUpdate] at hc
  | cons d c ih =>
      cases hd : claimEligible d with
      | true =>
          rw [claim_next_cons_pos d c hd] at hc
          simp at hc
          obtain ⟨rfl, rfl⟩ := hc
          exact ⟨by simp, metaGet_setMetaField_self d _ _⟩
      | false =>
          rw [claim_next_cons_neg d c hd] at hc
          cases hrec : claim_next c with
          | mk o c2 =>
              rw [hrec] at hc
              cases o with
              | none => simp at hc
              | some t2 =>
                  simp at hc
                  obtain ⟨rfl, rfl⟩ := hc
                  obtain ⟨h1, h2⟩ := ih c2 hrec
                  exact ⟨by simp [h1], h2⟩

/-! ## Concrete records used as inputs -/

/-- A pending ticket as created by the dashboard intake form
(`main.py`, Raise Ticket with target "Pending"): `metadata` carries
`is_drafted = False` and there is no `metadata.drafted` field. -/
def intakeTicket : Doc :=
  [("ticket_id", vStr "TKT_0099"),
   ("issue", vStr "Customer cannot log in"),
   ("metadata", BVal.sub
     [("ticket_creation_time", .pTime 100),
      ("category", .pStr "Technical"),
      ("priority", .pStr "medium"),
      ("is_drafted", .pBool false)]),
   ("used_policy", vNull)]

/-- A pending ticket shaped so that the worker's own filter matches it:
`metadata.drafted = false`. -/
def workerTicketA : Doc :=
  [("ticket_id", vStr "TKT_0101"),
   ("issue", vStr "Cannot reset password"),
   ("ticket_creation_time", vTime 110),
   ("metadata", BVal.sub [("drafted", .pBool false)])]

/-- A second worker-compatible pending ticket with a distinct id. -/
def workerTicketB : Doc :=
  [("ticket_id", vStr "TKT_0102"),
   ("issue", vStr "Payment declined"),
   ("ticket_creation_time", vTime 120),
   ("metadata", BVal.sub [("drafted", .pBool false)])]

/-! ## Claims -/

/-- Claim C1: the spec says the claim step finds a `pending` record with
`is_drafted = false`, flips it and returns it, so a ticket created by
intake (which sets `metadata.is_drafted = false`) is claimed rather than
the step signalling empty.  The code's filter is `metadata.drafted`,
a field no producer in the repository ever writes: on a store holding
exactly the intake-created ticket, whose `metadata.is_drafted` is
`false`, `claim_next` returns none and leaves the store unchanged. -/
theorem claim_next_misses_intake_ticket :
    metaGet intakeTicket "is_drafted" = some (.pBool false) ∧
    claimEligible intakeTicket = false ∧
    claim_next [intakeTicket] = (none, [intakeTicket]) :=
  ⟨rfl, rfl, rfl⟩

/-- Claim C2: starting from a pending store whose claim-eligible tickets
have pairwise distinct `ticket_id`s, any sequence of `claim_next` steps
(each an atomic read-modify-write, no interleaved release) returns each
`ticket_id` at most once, and once the step count reaches the number M of
eligible tickets the claimed ids are exactly those M distinct ids. -/
theorem no_double_claim (c : Collection) (n : Nat)
    (h : ((c.filter claimEligible).map (fun d => dget d "ticket_id")).Nodup) :
    ((claimSeq n c).1.map (fun d => dget d "ticket_id")).Nodup ∧
    ((c.filter claimEligible).length ≤ n →
      (claimSeq n c).1.map (fun d => dget d "ticket_id") =
        (c.filter claimEligible).map (fun d => dget d "ticket_id")) := by
  have key : (claimSeq n c).1.map (fun d => dget d "ticket_id")
      = ((c.filter claimEligible).take n).map (fun d => dget d "ticket_id") := by
    rw [claimSeq_fst c n, List.map_map]
    exact List.map_congr_left fun d _ => dget_tid_claimUpdate d
  constructor
  · rw [key]
    exact h.sublist ((List.take_sublist n _).map _)
  · intro hn
    rw [key, List.take_of_length_le hn]

/-- Witness for C2 at a concrete store of two eligible tickets with
distinct ids and two claim steps. -/
theorem no_double_claim_witness :
    (((claimSeq 2 [workerTicketA, workerTicketB]).1.map
        (fun d => dget d "ticket_id")).Nodup) ∧
    (([workerTicketA, workerTicketB].filter claimEligible).length ≤ 2 →
      (claimSeq 2 [workerTicketA, workerTicketB]).1.map
          (fun d => dget d "ticket_id") =
        ([workerTicketA, workerTicketB].filter claimEligible).map
          (fun d => dget d "ticket_id")) :=
  no_double_claim [workerTicketA, workerTicketB] 2 (by decide)

theorem DB.setCol_getCol (db : DB) (s : StoreName) :
    db.setCol s (db.getCol s) = db := by
  cases s <;> rfl

/-- Claim C8: the spec says that after claim, `ConnectionFailure` during
drafting, and rollback, the ticket again satisfies `is_drafted = false`
in `pending` and is eligible for a subsequent `claim_next`.  Evaluating
the worker iteration on a claimable ticket: the rollback restores exactly
the original record and the ticket is again claimable, but the flag the
code claims and resets is `metadata.drafted`; `metadata.is_drafted` is
never touched and is absent from the record, so the record does not
satisfy `is_drafted = false`. -/
theorem rollback_resets_drafted_flag_only :
    workerIteration (.error .connectionFailure)
        ⟨[workerTicketA], [], [], [], []⟩
      = (.rolledBack (vStr "TKT_0101"), ⟨[workerTicketA], [], [], [], []⟩) ∧
    claimEligible workerTicketA = true ∧
    metaGet workerTicketA "is_drafted" = none :=
  ⟨rfl, rfl, rfl⟩

/-- Claim C9: when drafting a claimed ticket fails with the parse error,
the worker loop performs no rollback: the iteration crashes, the claimed
record (whose claimed flag `metadata.drafted` is `true`) stays in the
pending store, and no draft record is inserted into any store. -/
theorem parse_error_strands_claim (db : DB) (raw t : Doc) (p1 : Collection)
    (tidv iv cv mv : BVal)
    (h1 : claim_next db.pending_tickets = (some t, p1))
    (h2 : dget t "ticket_id" = some tidv)
    (h3 : dget t "issue" = some iv)
    (h4 : dget t "ticket_creation_time" = some cv)
    (h5 : dget t "metadata" = some mv)
    (h6 : parseRDOutput raw = .error .parseError) :
    workerIteration (.ok raw) db
      = (.crashed .parseError, { db with pending_tickets := p1 }) ∧
    t ∈ p1 ∧ metaGet t "drafted" = some (.pBool true) := by
  obtain ⟨hm, hd⟩ := claim_next_some _ _ _ h1
  refine ⟨?_, hm, hd⟩
  unfold workerIteration
  rw [h1]
  simp [h2, perform_ai_drafting, getItem, h3, h4, h5, response_drafting, h6,
    Bind.bind, Except.bind, Functor.map, Except.map]

/-- Witness for C9: a one-ticket store and a structurally empty parse
result (missing required fields). -/
theorem parse_error_strands_claim_witness :
    workerIteration (.ok []) ⟨[workerTicketA], [], [], [], []⟩
      = (.crashed .parseError,
         ⟨[claimUpdate workerTicketA], [], [], [], []⟩) ∧
    claimUpdate workerTicketA ∈ [claimUpdate workerTicketA] ∧
    metaGet (claimUpdate workerTicketA) "drafted" = some (.pBool true) :=
  parse_error_strands_claim ⟨[workerTicketA], [], [], [], []⟩ [] _ _
    (vStr "TKT_0101") (vStr "Cannot reset password") (vTime 110)
    (BVal.sub [("drafted", .pBool true)]) rfl rfl rfl rfl rfl rfl

/-- Claim C5: every move transition whose source store holds no record
with the given ticket id fails (the `None` returned by
`find_one_and_delete` raises on the `.pop` attribute access, an error the
`except PyMongoError` clause does not convert to `False`) and leaves the
whole database, in particular the destination store, unchanged. -/
theorem move_missing_source_fails_closed (db : DB) (X resp : String) (now : Nat)
    (h : ∀ s : StoreName, ∀ d ∈ db.getCol s, matchesTid (vStr X) d = false) :
    move_pending_ticket_to_completed_in_db X resp now db
      = (.error .attributeError, db) ∧
    move_drafted_ticket_to_completed_in_db X resp now db
      = (.error .attributeError, db) ∧
    move_escalated_ticket_to_completed_in_db X resp now db
      = (.error .attributeError, db) ∧
    ∀ s : StoreName, move_tickets_to_escalated_tickets_in_db X s db
      = (.error .attributeError, db) := by
  refine ⟨?_, ?_, ?_, ?_⟩
  · have hp := findOneAndDelete_none (matchesTid (vStr X)) _ (h .pendingTickets)
    simp only [DB.getCol] at hp
    unfold move_pending_ticket_to_completed_in_db
    rw [hp]
  · have hd := findOneAndDelete_none (matchesTid (vStr X)) _
      (h .aiPendingDraftedTickets)
    simp only [DB.getCol] at hd
    unfold move_drafted_ticket_to_completed_in_db
    rw [hd]
  · have he := findOneAndDelete_none (matchesTid (vStr X)) _ (h .escalatedTickets)
    simp only [DB.getCol] at he
    unfold move_escalated_ticket_to_completed_in_db
    rw [he]
  · intro s
    have hs := findOneAndDelete_none (matchesTid (vStr X)) _ (h s)
    unfold move_tickets_to_escalated_tickets_in_db
    rw [hs]
    simp [DB.setCol_getCol]

/-- Witness for C5: an empty database and a fresh ticket id. -/
theorem move_missing_source_fails_closed_witness :
    move_pending_ticket_to_completed_in_db "TKT_0404" "r" 7 ⟨[], [], [], [], []⟩
      = (.error .attributeError, ⟨[], [], [], [], []⟩) ∧
    move_drafted_ticket_to_completed_in_db "TKT_0404" "r" 7 ⟨[], [], [], [], []⟩
      = (.error .attributeError, ⟨[], [], [], [], []⟩) ∧
    move_escalated_ticket_to_completed_in_db "TKT_0404" "r" 7 ⟨[], [], [], [], []⟩
      = (.error .attributeError, ⟨[], [], [], [], []⟩) ∧
    ∀ s : StoreName,
      move_tickets_to_escalated_tickets_in_db "TKT_0404" s ⟨[], [], [], [], []⟩
        = (.error .attributeError, ⟨[], [], [], [], []⟩) :=
  move_missing_source_fails_closed ⟨[], [], [], [], []⟩ "TKT_0404" "r" 7
    (by
      intro s d hd
      cases s <;> exact absurd hd (List.not_mem_nil d))

/-- Claim C10: approving a pending ticket whose `metadata.is_drafted` is
`true` while no drafted-store record shares its `ticket_id` first deletes
the pending record, then the join helper returns `None`, and the tuple
unpacking raises `TypeError` — which `except PyMongoError` does not turn
into `False` — so the operation terminates abnormally with the pending
record already gone and nothing inserted into the completed store. -/
theorem pending_approve_missing_join_raises (db : DB) (tid resp : String)
    (now : Nat) (t : Doc) (p1 : Collection) (md : SubDoc) (tidv : BVal)
    (h1 : findOneAndDelete (matchesTid (vStr tid)) db.pending_tickets
      = (some t, p1))
    (h2 : dget t "metadata" = some (.sub md))
    (h3 : dget md "is_drafted" = some (.pBool true))
    (h4 : dget t "ticket_id" = some tidv)
    (h5 : ∀ d ∈ db.ai_pending_drafted_tickets, matchesTid tidv d = false) :
    move_pending_ticket_to_completed_in_db tid resp now db
      = (.error .typeError, { db with pending_tickets := p1 }) := by
  have hfetch : findAll (matchesTid tidv) db.ai_pending_drafted_tickets = [] := by
    simp only [findAll, List.filter_eq_nil_iff]
    intro d hd
    simp [h5 d hd]
  unfold move_pending_ticket_to_completed_in_db
  rw [h1]
  simp [getItem, pyGetItem, h2, h3, h4, fetch_ticket_response_and_confidence,
    fetch_ai_drafted_document, hfetch, vBool,
    Bind.bind, Except.bind, throw, throwThe, MonadExceptOf.throw]

/-- A pending ticket whose metadata claims it was drafted. -/
def pendingDraftedTicket : Doc :=
  [("ticket_id", vStr "TKT_0011"),
   ("issue", vStr "Request for account upgrade - Tier 1"),
   ("metadata", BVal.sub
     [("ticket_creation_time", .pTime 132),
      ("category", .pStr "Billing"),
      ("priority", .pStr "high"),
      ("is_drafted", .pBool true)])]

/-- Witness for C10: the drafted store holds no record for `TKT_0011`. -/
theorem pending_approve_missing_join_raises_witness :
    move_pending_ticket_to_completed_in_db "TKT_0011" "Sent to customer" 500
        ⟨[pendingDraftedTicket], [], [], [], []⟩
      = (.error .typeError, ⟨[], [], [], [], []⟩) :=
  pending_approve_missing_join_raises ⟨[pendingDraftedTicket], [], [], [], []⟩
    "TKT_0011" "Sent to customer" 500 pendingDraftedTicket []
    [("ticket_creation_time", .pTime 132), ("category", .pStr "Billing"),
     ("priority", .pStr "high"), ("is_drafted", .pBool true)]
    (vStr "TKT_0011") rfl rfl rfl rfl
    (by intro d hd; exact absurd hd (List.not_mem_nil d))

/-- The drafted-store record the worker-style join would read, carrying
the `reply` and `confidence` fields the join helper looks up. -/
def draftedJoinRecord : Doc :=
  [("ticket_id", vStr "TKT_0011"),
   ("issue", vStr "Request for account upgrade - Tier 1"),
   ("reply", vStr "Your account upgrade request has been processed successfully."),
   ("confidence", vNum (88/100))]

/-- An intake-style pending ticket that was never drafted. -/
def pendingUndraftedTicket : Doc :=
  [("ticket_id", vStr "TKT_0005"),
   ("issue", vStr "Network connectivity issue reported by user 5"),
   ("metadata", BVal.sub
     [("ticket_creation_time", .pTime 50),
      ("category", .pStr "Technical"),
      ("priority", .pStr "medium"),
      ("is_drafted", .pBool false)])]

/-- A stale drafted-store record sharing `TKT_0005`'s id. -/
def staleDraftRecord : Doc :=
  [("ticket_id", vStr "TKT_0005"),
   ("reply", vStr "stale draft"),
   ("confidence", vNum (1/2))]

/-- Claim C3: the spec says the drafted-origin pending approve pulls
`ai_drafted_response`/`confidence`/`tone` by joining against the
drafted-store record and deletes that record, and only that case deletes
it.  Evaluating the code: (1) on a drafted-origin pending ticket with a
matching drafted record, the move reads `tone` from the pending record's
top level — not from the join — so it raises `KeyError` after deleting
the pending record, and the drafted record is not deleted; (2) the
drafted-store delete fires precisely in the `is_drafted = false` branch,
where the move succeeds with null draft fields and removes a stale
drafted record that the claim says would be kept. -/
theorem pending_approve_drafted_origin_behaviour :
    (move_pending_ticket_to_completed_in_db "TKT_0011" "Sent to customer" 500
        ⟨[pendingDraftedTicket], [draftedJoinRecord], [], [], []⟩
      = (.error (.keyError "tone"),
         ⟨[], [draftedJoinRecord], [], [], []⟩)) ∧
    (move_pending_ticket_to_completed_in_db "TKT_0005" "Resolved manually" 600
        ⟨[pendingUndraftedTicket], [staleDraftRecord], [], [], []⟩
      = (.ok true,
         ⟨[], [],
          [[("ticket_id", vStr "TKT_0005"),
            ("issue", vStr "Network connectivity issue reported by user 5"),
            ("resolution", vStr "Resolved manually"),
            ("ai_drafted_response", vNull), ("confidence", vNull),
            ("metadata", BVal.sub
              [("ticket_creation_time", .pTime 50),
               ("ticket_closure_time", .pTime 600),
               ("category", .pStr "Technical"),
               ("priority", .pStr "medium"),
               ("is_drafted", .pBool false),
               ("tone", .pNull)])]],
          [], []⟩)) :=
  ⟨rfl, rfl⟩

/-- Claim C7: approving a drafted ticket copies `ai_drafted_response`,
`used_policy`, `used_reference_ticket_id`, `confidence` and the
metadata `tone` verbatim from the source record, attaches the submitted
resolution text and the current time as closure time, and afterwards no
record with that ticket id remains in the drafted store. -/
theorem drafted_approve_round_trip (db : DB) (tid resp : String) (now : Nat)
    (t : Doc) (d1 : Collection) (iv ai up ur conf : BVal) (md : SubDoc)
    (ct cat pri isd tone : Prim)
    (h1 : findOneAndDelete (matchesTid (vStr tid)) db.ai_pending_drafted_tickets
      = (some t, d1))
    (huniq : (db.ai_pending_drafted_tickets.filter
      (matchesTid (vStr tid))).length ≤ 1)
    (h2 : dget t "issue" = some iv)
    (h3 : dget t "ai_drafted_response" = some ai)
    (h4 : dget t "used_policy" = some up)
    (h5 : dget t "used_reference_ticket_id" = some ur)
    (h6 : dget t "confidence" = some conf)
    (h7 : dget t "metadata" = some (.sub md))
    (h8 : dget md "ticket_creation_time" = some ct)
    (h9 : dget md "category" = some cat)
    (h10 : dget md "priority" = some pri)
    (h11 : dget md "is_drafted" = some isd)
    (h12 : dget md "tone" = some tone) :
    move_drafted_ticket_to_completed_in_db tid resp now db
      = (.ok true,
         { db with
             ai_pending_drafted_tickets := d1,
             solved_tickets := insertOne db.solved_tickets
               [("ticket_id", vStr tid), ("issue", iv),
                ("resolution", vStr resp),
                ("ai_drafted_response", ai), ("used_policy", up),
                ("used_reference_ticket_id", ur), ("confidence", conf),
                ("metadata", BVal.sub
                  [("ticket_creation_time", ct),
                   ("ticket_closure_time", .pTime now),
                   ("category", cat), ("priority", pri),
                   ("is_drafted", isd), ("tone", tone)])] }) ∧
    d1.filter (matchesTid (vStr tid)) = [] := by
  constructor
  · unfold move_drafted_ticket_to_completed_in_db
    rw [h1]
    simp [getItem, pyGetItem, h2, h3, h4, h5, h6, h7, h8, h9, h10, h11, h12,
      Bind.bind, Except.bind, Pure.pure, Except.pure, BVal.asPrim]
  · have hf := findOneAndDelete_filter _ _ _ _ h1
    rw [hf] at huniq
    simp at huniq
    exact List.filter_eq_nil_iff.mpr fun a ha => by simp [huniq a ha]

/-- The `TKT_0011` drafted record of the spec's round-trip example. -/
def sampleDrafted11 : Doc :=
  [("ticket_id", vStr "TKT_0011"),
   ("issue", vStr "Request for account upgrade - Tier 1"),
   ("used_policy", vStr "Subscription Upgrade Policy"),
   ("ai_drafted_response",
    vStr "Your account upgrade request has been processed successfully."),
   ("used_reference_ticket_id", vStr "TKT_0001"),
   ("confidence", vNum (88/100)),
   ("metadata", BVal.sub
     [("ticket_creation_time", .pTime 132),
      ("category", .pStr "Billing"),
      ("priority", .pStr "high"),
      ("is_drafted", .pBool true),
      ("tone", .pStr "Professional")])]

/-- Witness for C7 at the spec's example: approving `TKT_0011` with
resolution "Sent to customer". -/
theorem drafted_approve_round_trip_witness :
    move_drafted_ticket_to_completed_in_db "TKT_0011" "Sent to customer" 700
        ⟨[], [sampleDrafted11], [], [], []⟩
      = (.ok true,
         ⟨[], [],
          [[("ticket_id", vStr "TKT_0011"),
            ("issue", vStr "Request for account upgrade - Tier 1"),
            ("resolution", vStr "Sent to customer"),
            ("ai_drafted_response",
             vStr "Your account upgrade request has been processed successfully."),
            ("used_policy", vStr "Subscription Upgrade Policy"),
            ("used_reference_ticket_id", vStr "TKT_0001"),
            ("confidence", vNum (88/100)),
            ("metadata", BVal.sub
              [("ticket_creation_time", .pTime 132),
               ("ticket_closure_time", .pTime 700),
               ("category", .pStr "Billing"),
               ("priority", .pStr "high"),
               ("is_drafted", .pBool true),
               ("tone", .pStr "Professional")])]],
          [], []⟩) ∧
    ([] : Collection).filter (matchesTid (vStr "TKT_0011")) = [] :=
  drafted_approve_round_trip ⟨[], [sampleDrafted11], [], [], []⟩
    "TKT_0011" "Sent to customer" 700 sampleDrafted11 []
    (vStr "Request for account upgrade - Tier 1")
    (vStr "Your account upgrade request has been processed successfully.")
    (vStr "Subscription Upgrade Policy") (vStr "TKT_0001") (vNum (88/100))
    [("ticket_creation_time", .pTime 132), ("category", .pStr "Billing"),
     ("priority", .pStr "high"), ("is_drafted", .pBool true),
     ("tone", .pStr "Professional")]
    (.pTime 132) (.pStr "Billing") (.pStr "high") (.pBool true)
    (.pStr "Professional") rfl (by decide) rfl rfl rfl rfl rfl rfl rfl rfl rfl
    rfl rfl

/-- An escalated ticket handled manually: none of the AI draft fields is
present on the record. -/
def escalatedManualTicket : Doc :=
  [("ticket_id", vStr "TKT_0031"),
   ("issue", vStr "Urgent security breach reported by VIP user 31"),
   ("metadata", BVal.sub
     [("ticket_creation_time", .pTime 248),
      ("category", .pStr "Security"),
      ("priority", .pStr "critical"),
      ("is_drafted", .pBool false)])]

/-- Counterexample to C6 as stated: approving an escalated ticket that
lacks all four AI draft fields yields a completed record whose
`used_policy` and `used_reference_ticket_id` are null, not the
"Senior agent handled the response" sentinel — only
`ai_drafted_response` and `confidence` receive the sentinel. -/
theorem escalated_approve_null_defaults :
    move_escalated_ticket_to_completed_in_db "TKT_0031" "Contained and patched"
        999 ⟨[], [], [], [escalatedManualTicket], []⟩
      = (.ok true,
         ⟨[], [],
          [[("ticket_id", vStr "TKT_0031"),
            ("issue", vStr "Urgent security breach reported by VIP user 31"),
            ("resolution", vStr "Contained and patched"),
            ("ai_drafted_response", vStr "Senior agent handled the response"),
            ("used_policy", vNull),
            ("used_reference_ticket_id", vNull),
            ("confidence", vStr "Senior agent handled the response"),
            ("metadata", BVal.sub
              [("ticket_creation_time", .pTime 248),
               ("ticket_closure_time", .pTime 999),
               ("category", .pStr "Security"),
               ("priority", .pStr "critical"),
               ("is_drafted", .pBool false),
               ("tone", .pNull)])]],
          [], []⟩) ∧
    vNull ≠ vStr "Senior agent handled the response" :=
  ⟨rfl, by simp [vNull, vStr]⟩

/-- Claim C6 amended: approving an escalated ticket copies `issue` and
the metadata fields from the source, attaches the human resolution and
the current time as closure time; each of the four optional fields is
copied verbatim when present on the source record, and when absent only
`ai_drafted_response` and `confidence` default to the
"Senior agent handled the response" sentinel, while `used_policy` and
`used_reference_ticket_id` default to null; `metadata.tone` is always
null.  The four optional fields are universally quantified as `Option`
values, so the theorem covers every present/absent combination. -/
theorem escalated_approve_defaults (db : DB) (tid resp : String) (now : Nat)
    (t : Doc) (e1 : Collection) (iv : BVal) (md : SubDoc)
    (ct cat pri isd : Prim) (ai up ur conf : Option BVal)
    (h1 : findOneAndDelete (matchesTid (vStr tid)) db.escalated_tickets
      = (some t, e1))
    (h2 : dget t "issue" = some iv)
    (h3 : dget t "ai_drafted_response" = ai)
    (h4 : dget t "used_policy" = up)
    (h5 : dget t "used_reference_ticket_id" = ur)
    (h6 : dget t "confidence" = conf)
    (h7 : dget t "metadata" = some (.sub md))
    (h8 : dget md "ticket_creation_time" = some ct)
    (h9 : dget md "category" = some cat)
    (h10 : dget md "priority" = some pri)
    (h11 : dget md "is_drafted" = some isd) :
    move_escalated_ticket_to_completed_in_db tid resp now db
      = (.ok true,
         { db with
             escalated_tickets := e1,
             solved_tickets := insertOne db.solved_tickets
               [("ticket_id", vStr tid), ("issue", iv),
                ("resolution", vStr resp),
                ("ai_drafted_response",
                 ai.getD (vStr "Senior agent handled the response")),
                ("used_policy", up.getD vNull),
                ("used_reference_ticket_id", ur.getD vNull),
                ("confidence",
                 conf.getD (vStr "Senior agent handled the response")),
                ("metadata", BVal.sub
                  [("ticket_creation_time", ct),
                   ("ticket_closure_time", .pTime now),
                   ("category", cat), ("priority", pri),
                   ("is_drafted", isd), ("tone", .pNull)])] }) := by
  unfold move_escalated_ticket_to_completed_in_db
  rw [h1]
  simp [getItem, pyGetItem, getDefault, h2, h3, h4, h5, h6, h7, h8, h9, h10,
    h11, Bind.bind, Except.bind, Pure.pure, Except.pure, BVal.asPrim]

/-- An escalated ticket carrying two of the four optional fields
(`used_policy`, `confidence`) and lacking the other two
(`ai_drafted_response`, `used_reference_ticket_id`). -/
def escalatedMixedTicket : Doc :=
  [("ticket_id", vStr "TKT_0032"),
   ("issue", vStr "Payment failure reported by VIP user 32"),
   ("used_policy", vStr "Critical Escalation Protocol"),
   ("confidence", vNum (65/100)),
   ("metadata", BVal.sub
     [("ticket_creation_time", .pTime 256),
      ("category", .pStr "Security"),
      ("priority", .pStr "critical"),
      ("is_drafted", .pBool true)])]

/-- Witness for the amended C6 at a mixed escalated ticket: the present
fields (`used_policy`, `confidence`) are copied verbatim, the absent ones
(`ai_drafted_response`, `used_reference_ticket_id`) take their respective
defaults, and `metadata.tone` is null. -/
theorem escalated_approve_defaults_witness :
    move_escalated_ticket_to_completed_in_db "TKT_0032" "Refunded in full"
        1000 ⟨[], [], [], [escalatedMixedTicket], []⟩
      = (.ok true,
         ⟨[], [],
          insertOne []
            [("ticket_id", vStr "TKT_0032"),
             ("issue", vStr "Payment failure reported by VIP user 32"),
             ("resolution", vStr "Refunded in full"),
             ("ai_drafted_response", vStr "Senior agent handled the response"),
             ("used_policy", vStr "Critical Escalation Protocol"),
             ("used_reference_ticket_id", vNull),
             ("confidence", vNum (65/100)),
             ("metadata", BVal.sub
               [("ticket_creation_time", .pTime 256),
                ("ticket_closure_time", .pTime 1000),
                ("category", .pStr "Security"),
                ("priority", .pStr "critical"),
                ("is_drafted", .pBool true),
                ("tone", .pNull)])],
          [], []⟩) :=
  escalated_approve_defaults ⟨[], [], [], [escalatedMixedTicket], []⟩
    "TKT_0032" "Refunded in full" 1000 escalatedMixedTicket []
    (vStr "Payment failure reported by VIP user 32")
    [("ticket_creation_time", .pTime 256), ("category", .pStr "Security"),
     ("priority", .pStr "critical"), ("is_drafted", .pBool true)]
    (.pTime 256) (.pStr "Security") (.pStr "critical") (.pBool true)
    none (some (vStr "Critical Escalation Protocol")) none
    (some (vNum (65/100)))
    rfl rfl rfl rfl rfl rfl rfl rfl rfl rfl rfl

/-- A structured drafting output whose confidence lies outside [0, 1]. -/
def badConfidenceOutput : Doc :=
  [("ticket_id", vStr "TKT_0101"),
   ("reply", vStr "We will refund you."),
   ("tone", vStr "polite"),
   ("confidence", vNum (14/10))]

/-- Counterexample to C4 as stated: the output schema declares
`confidence: float` with no range constraint, so a drafted output with
`confidence = 1.4` passes `parser.parse` instead of raising the parse
error, and `perform_ai_drafting` then writes a draft record for the
ticket. -/
theorem confidence_out_of_range_accepted :
    parseRDOutput badConfidenceOutput
      = .ok ⟨"TKT_0101", "We will refund you.", "polite", 14/10, none, none⟩ ∧
    (1 : Rat) < 14/10 ∧
    perform_ai_drafting workerTicketA (.ok badConfidenceOutput)
        ⟨[], [], [], [], []⟩
      = (.ok (),
         ⟨[], [], [], [],
          [save_draft_to_db_doc (vStr "TKT_0101")
            (vStr "Cannot reset password") (vTime 110)
            (BVal.sub [("drafted", .pBool false)])
            ⟨"TKT_0101", "We will refund you.", "polite", 14/10, none,
             none⟩]⟩) :=
  ⟨rfl, by norm_num, rfl⟩

/-- Claim C4 amended: drafting rejects a result with the parse error only
for structural schema violations; the confidence value is never
range-checked, so any successfully validated result — including one with
confidence outside [0, 1] — leads to a draft record being inserted into
the draft store. -/
theorem drafting_has_no_confidence_range_check (t raw : Doc) (db : DB)
    (o : ResponseDraftingOutput) (tidv iv cv mv : BVal)
    (h1 : dget t "ticket_id" = some tidv)
    (h2 : dget t "issue" = some iv)
    (h3 : dget t "ticket_creation_time" = some cv)
    (h4 : dget t "metadata" = some mv)
    (h5 : parseRDOutput raw = .ok o) :
    perform_ai_drafting t (.ok raw) db
      = (.ok (),
         { db with draft_tickets :=
             (insertOne db.draft_tickets
               (save_draft_to_db_doc tidv iv cv mv o)) }) := by
  unfold perform_ai_drafting
  simp [getItem, h1, h2, h3, h4, response_drafting, h5, Bind.bind,
    Except.bind, Pure.pure, Except.pure, Functor.map, Except.map]

/-- Witness for the amended C4 at the out-of-range concrete output. -/
theorem drafting_has_no_confidence_range_check_witness :
    perform_ai_drafting workerTicketA (.ok badConfidenceOutput)
        ⟨[], [], [], [], []⟩
      = (.ok (),
         ⟨[], [], [], [],
          insertOne []
            (save_draft_to_db_doc (vStr "TKT_0101")
              (vStr "Cannot reset password") (vTime 110)
              (BVal.sub [("drafted", .pBool false)])
              ⟨"TKT_0101", "We will refund you.", "polite", 14/10, none,
               none⟩)⟩) :=
  drafting_has_no_confidence_range_check workerTicketA badConfidenceOutput
    ⟨[], [], [], [], []⟩
    ⟨"TKT_0101", "We will refund you.", "polite", 14/10, none, none⟩
    (vStr "TKT_0101") (vStr "Cannot reset password") (vTime 110)
    (BVal.sub [("drafted", .pBool false)]) rfl rfl rfl rfl rfl

end AiSupport
